import Mathlib

/-!
Verification of the decofs-mt passthrough filesystem core.

Shallow embedding of the translation layer in `src/deco.rs`,
`src/unmanaged_file.rs` and `src/libc_wrapper.rs`:

  * paths are modelled as an absolute flag plus a component list
    (the shape `std::path::Path` exposes through `strip_prefix` and `join`);
  * `mode_t` values are natural numbers, masked with the octal constants
    from libc;
  * raw `stat` / `statfs` structures are records whose signed C fields are
    `Int` and unsigned C fields are `Nat`;
  * a fallible syscall returns `Except (Option Int) α`: the error payload is
    the result of `io::Error::raw_os_error()`, which may be absent;
  * a Rust panic (`unwrap` on `Err`/`None`, the `panic!` arm of
    `mode_to_filetype`) is modelled as the `none` case of an outer `Option`;
  * the syscalls issued by the descriptor lifecycle (open, seek, read,
    close) are modelled as an explicit trace of `OsCall` events, so that
    "the wrapper never closes the descriptor" is a statement about which
    events a call emits.
-/

namespace Decofs

/-- ENOENT, the "no such entry" POSIX error code (`libc::ENOENT`). -/
def ENOENT : Int := 2

/-- Translation of `e.raw_os_error().unwrap_or(ENOENT)`: every error site in
`deco.rs` turns the optional raw OS code into an integer code this way. -/
def errCode (e : Option Int) : Int := e.getD ENOENT

/-! ## Path model

`std::path::Path` values, abstracted to the operations `deco.rs` uses:
an absolute path starts with the root separator; components follow.
-/

/-- A Rust `Path`: whether it starts with the root separator, and its
normal components in order. -/
structure RustPath where
  absolute : Bool
  components : List String
deriving DecidableEq, Repr

/-- `path.strip_prefix("/")`: succeeds exactly on absolute paths, yielding
the same components without the root; on a relative path it returns
`Err(StripPrefixError)` (here `none`, which the caller unwraps). -/
def stripRootSep (p : RustPath) : Option RustPath :=
  if p.absolute then some ⟨false, p.components⟩ else none

/-- `base.join(p)` for `PathBuf`: an absolute argument replaces `base`,
otherwise the components are appended. -/
def pathJoin (base p : RustPath) : RustPath :=
  if p.absolute then p else ⟨base.absolute, base.components ++ p.components⟩

namespace DecoFS

/-- `DecoFS::real_path` (deco.rs lines 26-28):
`PathBuf::from(&self.sourceroot).join(partial.strip_prefix("/").unwrap())`.
The `unwrap` panics when the virtual path is not absolute; the panic is the
`none` result. -/
def real_path (sourceroot p : RustPath) : Option RustPath :=
  (stripRootSep p).map (pathJoin sourceroot)

end DecoFS

/-! ## File type classification -/

/-- `fuse_mt::FileType`, the seven file type tags the mount driver knows. -/
inductive FileType where
  | Directory
  | RegularFile
  | Symlink
  | BlockDevice
  | CharDevice
  | NamedPipe
  | Socket
deriving DecidableEq, Repr

/-- `libc::S_IFMT`, the file type mask in `st_mode`. -/
def S_IFMT : Nat := 0o170000

/-- `libc::S_IFDIR`. -/
def S_IFDIR : Nat := 0o040000

/-- `libc::S_IFREG`. -/
def S_IFREG : Nat := 0o100000

/-- `libc::S_IFLNK`. -/
def S_IFLNK : Nat := 0o120000

/-- `libc::S_IFBLK`. -/
def S_IFBLK : Nat := 0o060000

/-- `libc::S_IFCHR`. -/
def S_IFCHR : Nat := 0o020000

/-- `libc::S_IFIFO`. -/
def S_IFIFO : Nat := 0o010000

/-- `libc::S_IFSOCK`. -/
def S_IFSOCK : Nat := 0o140000

namespace DecoFS

/-- `DecoFS::mode_to_filetype` (deco.rs lines 41-54): matches
`mode & S_IFMT` against the seven recognized patterns; any other masked
value hits `panic!("unknown file type")`, modelled as `none`. -/
def mode_to_filetype (mode : Nat) : Option FileType :=
  let m := mode &&& S_IFMT
  if m = S_IFDIR then some FileType.Directory
  else if m = S_IFREG then some FileType.RegularFile
  else if m = S_IFLNK then some FileType.Symlink
  else if m = S_IFBLK then some FileType.BlockDevice
  else if m = S_IFCHR then some FileType.CharDevice
  else if m = S_IFIFO then some FileType.NamedPipe
  else if m = S_IFSOCK then some FileType.Socket
  else none

end DecoFS

/-! ## Raw OS structures

Field widths follow the Linux x86_64 libc definitions that the crate
compiles against: signed C fields (`off_t`, `blkcnt_t`, `time_t`,
`__fsword_t`) are `Int`, unsigned C fields (`mode_t`, `nlink_t`, `uid_t`,
`gid_t`, `dev_t`, `fsblkcnt_t`, `fsfilcnt_t`) are `Nat`.
-/

/-- The fields of `libc::stat` that `stat_to_fuse` reads. -/
structure CStat where
  st_mode : Nat
  st_size : Int
  st_blocks : Int
  st_atime : Int
  st_atime_nsec : Int
  st_mtime : Int
  st_mtime_nsec : Int
  st_ctime : Int
  st_ctime_nsec : Int
  st_nlink : Nat
  st_uid : Nat
  st_gid : Nat
  st_rdev : Nat
deriving DecidableEq, Repr

/-- The fields of `libc::statfs` that `statfs_to_fuse` reads. -/
structure CStatfs where
  f_blocks : Nat
  f_bfree : Nat
  f_bavail : Nat
  f_files : Nat
  f_ffree : Nat
  f_bsize : Int
  f_namelen : Int
  f_frsize : Int
deriving DecidableEq, Repr

/-- `fuse_mt::Statfs`, the capacity record handed to the mount driver.
All fields are unsigned: `blocks` through `ffree` are u64, `bsize`,
`namelen` and `frsize` are u32. -/
structure FuseStatfs where
  blocks : Nat
  bfree : Nat
  bavail : Nat
  files : Nat
  ffree : Nat
  bsize : Nat
  namelen : Nat
  frsize : Nat
deriving DecidableEq, Repr

/-- `fuse_mt::FileAttr`. `SystemTime` values are modelled as nanoseconds
since `UNIX_EPOCH` (every time built in `stat_to_fuse` is the epoch plus
nonnegative durations, so `Nat` is faithful). -/
structure FileAttr where
  size : Nat
  blocks : Nat
  atime : Nat
  mtime : Nat
  ctime : Nat
  crtime : Nat
  kind : FileType
  perm : Nat
  nlink : Nat
  uid : Nat
  gid : Nat
  rdev : Nat
  flags : Nat
deriving DecidableEq, Repr

/-- Rust `v as uN` on a signed 64-bit value: wrapping truncation to the low
`w` bits, read as unsigned. -/
def asUnsigned (w : Nat) (v : Int) : Nat := (v % ((2 : Int) ^ w)).toNat

/-- Rust `u64::try_from(v)` for `v : i64` (the `try_into` calls of
`stat_to_fuse`): fails exactly on negative input. -/
def i64TryIntoU64 (v : Int) : Option Nat :=
  if v < 0 then none else some v.toNat

/-- `Duration::from_secs s + Duration::from_nanos n`, as nanoseconds. -/
def secsNanos (s n : Nat) : Nat := s * 1000000000 + n

namespace DecoFS

/-- `DecoFS::statfs_to_fuse` (deco.rs lines 56-67): field-for-field copy;
`f_bsize`, `f_namelen` and `f_frsize` are `i64` narrowed with `as u32`,
the five count fields are `u64` passed through. -/
def statfs_to_fuse (s : CStatfs) : FuseStatfs :=
  { blocks := s.f_blocks
    bfree := s.f_bfree
    bavail := s.f_bavail
    files := s.f_files
    ffree := s.f_ffree
    bsize := asUnsigned 32 s.f_bsize
    namelen := asUnsigned 32 s.f_namelen
    frsize := asUnsigned 32 s.f_frsize }

/-- `DecoFS::stat_to_fuse` (deco.rs lines 69-95). The panic inside
`mode_to_filetype` and the six `try_into().unwrap()` calls on the
timestamp fields are the `none` cases, in source evaluation order;
otherwise each time is
`UNIX_EPOCH + Duration::from_secs(sec) + Duration::from_nanos(nsec)`,
`perm` is `(st_mode & 0o7777) as u16`, `crtime` is `UNIX_EPOCH`, and the
remaining fields are copied with `as` casts (`st_size`, `st_blocks` as u64,
`st_nlink`, `st_rdev` as u32). -/
def stat_to_fuse (stat : CStat) : Option FileAttr := do
  let kind ← DecoFS.mode_to_filetype stat.st_mode
  let asec ← i64TryIntoU64 stat.st_atime
  let ansec ← i64TryIntoU64 stat.st_atime_nsec
  let msec ← i64TryIntoU64 stat.st_mtime
  let mnsec ← i64TryIntoU64 stat.st_mtime_nsec
  let csec ← i64TryIntoU64 stat.st_ctime
  let cnsec ← i64TryIntoU64 stat.st_ctime_nsec
  some
    { size := asUnsigned 64 stat.st_size
      blocks := asUnsigned 64 stat.st_blocks
      atime := secsNanos asec ansec
      mtime := secsNanos msec mnsec
      ctime := secsNanos csec cnsec
      crtime := 0
      kind := kind
      perm := stat.st_mode &&& 0o7777
      nlink := stat.st_nlink % 2 ^ 32
      uid := stat.st_uid
      gid := stat.st_gid
      rdev := stat.st_rdev % 2 ^ 32
      flags := 0 }

/-- `DecoFS::stat_to_filetype` (deco.rs lines 97-99). -/
def stat_to_filetype (stat : CStat) : Option FileType :=
  DecoFS.mode_to_filetype stat.st_mode

/-- `DecoFS::stat_real` (deco.rs lines 35-39): translate the virtual path,
`lstat` the real path, convert. The syscall outcome is supplied as the
function `lstatF`, one `Except (Option Int) CStat` per real path; the outer
`Option` is a panic (non-absolute path, bad mode, negative timestamp). -/
def stat_real (lstatF : RustPath → Except (Option Int) CStat)
    (sourceroot p : RustPath) : Option (Except (Option Int) FileAttr) :=
  match DecoFS.real_path sourceroot p with
  | none => none
  | some real =>
    match lstatF real with
    | Except.error e => some (Except.error e)
    | Except.ok stat => (DecoFS.stat_to_fuse stat).map Except.ok

/-- `DecoFS::getattr` (deco.rs lines 112-125): with a file handle, `fstat`
on the handle; without one, `stat_real` on the path. Either error is
reported as `e.raw_os_error().unwrap_or(ENOENT)`. -/
def getattr (fstatF : Nat → Except (Option Int) CStat)
    (lstatF : RustPath → Except (Option Int) CStat)
    (sourceroot p : RustPath) (fh : Option Nat) :
    Option (Except Int FileAttr) :=
  match fh with
  | some h =>
    match fstatF h with
    | Except.ok stat => (DecoFS.stat_to_fuse stat).map Except.ok
    | Except.error e => some (Except.error (errCode e))
  | none =>
    match DecoFS.stat_real lstatF sourceroot p with
    | none => none
    | some (Except.ok attr) => some (Except.ok attr)
    | some (Except.error e) => some (Except.error (errCode e))

/-- `DecoFS::statfs` (deco.rs lines 127-134): translate the path, `statfs`
the real path, convert; an error is `e.raw_os_error().unwrap_or(ENOENT)`. -/
def statfs (statfsF : RustPath → Except (Option Int) CStatfs)
    (sourceroot p : RustPath) : Option (Except Int FuseStatfs) :=
  match DecoFS.real_path sourceroot p with
  | none => none
  | some real =>
    match statfsF real with
    | Except.ok s => some (Except.ok (DecoFS.statfs_to_fuse s))
    | Except.error e => some (Except.error (errCode e))

/-- `DecoFS::open` (deco.rs lines 183-194): translate the path, forward the
flags to `libc_wrapper::open`, return the raw descriptor with the flags
echoed; an error is `e.raw_os_error().unwrap_or(ENOENT)`. -/
def openOp (openF : RustPath → Nat → Except (Option Int) Nat)
    (sourceroot p : RustPath) (flags : Nat) :
    Option (Except Int (Nat × Nat)) :=
  match DecoFS.real_path sourceroot p with
  | none => none
  | some real =>
    match openF real flags with
    | Except.ok fh => some (Except.ok (fh, flags))
    | Except.error e => some (Except.error (errCode e))

/-- `DecoFS::release` (deco.rs lines 196-213): `libc_wrapper::close` on the
handle; an error is `e.raw_os_error().unwrap_or(ENOENT)`. -/
def release (closeF : Nat → Except (Option Int) Int) (fh : Nat) :
    Except Int Unit :=
  match closeF fh with
  | Except.ok _ => Except.ok ()
  | Except.error e => Except.error (errCode e)

end DecoFS

/-! ## Directory enumeration

`DecoFS::readdir` (deco.rs lines 142-175) iterates `fs::read_dir`; each
iterator item is itself a `Result`, each entry is then `lstat`-ed and its
type derived from the stat mode.  An entry of the listing carries the name
`fs::read_dir` attaches to the entry path (`real_path.file_name()`).
-/

/-- One item produced by the `fs::read_dir` iterator, already unpacked to
its file name (on entries produced by `read_dir` the path always has a
final component, so `file_name().unwrap()` cannot panic). -/
structure RawDirEntry where
  name : String
deriving DecidableEq, Repr

/-- `fuse_mt::DirectoryEntry`: name plus classified type. -/
structure DirectoryEntry where
  name : String
  kind : FileType
deriving DecidableEq, Repr

namespace DecoFS

/-- The entry loop of `DecoFS::readdir` (deco.rs lines 151-172): each item
may itself be an iterator error (whole call fails with its code); otherwise
the entry is `lstat`-ed (failure fails the whole call with that code) and
classified with `stat_to_filetype` (`none` = the unknown-type panic).
Entries accumulate in iteration order; any failure discards them all. -/
def readdirLoop (lstatF : RawDirEntry → Except (Option Int) CStat) :
    List (Except (Option Int) RawDirEntry) →
    Option (Except Int (List DirectoryEntry))
  | [] => some (Except.ok [])
  | Except.error e :: _ => some (Except.error (errCode e))
  | Except.ok ent :: rest =>
    match lstatF ent with
    | Except.error e => some (Except.error (errCode e))
    | Except.ok stat =>
      match DecoFS.stat_to_filetype stat with
      | none => none
      | some ft =>
        (DecoFS.readdirLoop lstatF rest).map
          (fun r => r.map (fun es => ⟨ent.name, ft⟩ :: es))

/-- `DecoFS::readdir` (deco.rs lines 142-175): open the real directory
listing (`fs::read_dir`; failure fails the whole call with
`e.raw_os_error().unwrap_or(ENOENT)`), then run the entry loop. -/
def readdir (lstatF : RawDirEntry → Except (Option Int) CStat)
    (readDirF : RustPath → Except (Option Int) (List (Except (Option Int) RawDirEntry)))
    (sourceroot p : RustPath) : Option (Except Int (List DirectoryEntry)) :=
  match DecoFS.real_path sourceroot p with
  | none => none
  | some real =>
    match readDirF real with
    | Except.error e => some (Except.error (errCode e))
    | Except.ok items => DecoFS.readdirLoop lstatF items

/-- The entry a successful `readdir` produces for one listing item, or
`none` if processing that item fails or panics: an iterator error, an
`lstat` error, or an unrecognized mode all give `none`.  Used to state the
all-or-nothing characterization of `readdirLoop`. -/
def entryOf (lstatF : RawDirEntry → Except (Option Int) CStat)
    (x : Except (Option Int) RawDirEntry) : Option DirectoryEntry :=
  match x with
  | Except.error _ => none
  | Except.ok en =>
    match lstatF en with
    | Except.error _ => none
    | Except.ok stat =>
      (DecoFS.stat_to_filetype stat).map (fun ft => ⟨en.name, ft⟩)

/-- The all-or-nothing expected result of a directory listing: the
successful entry for every item, or `none` as soon as any item fails.
Spec-side companion used to characterize `readdirLoop`. -/
def entriesOf (lstatF : RawDirEntry → Except (Option Int) CStat) :
    List (Except (Option Int) RawDirEntry) → Option (List DirectoryEntry)
  | [] => some []
  | x :: xs =>
    match DecoFS.entryOf lstatF x with
    | none => none
    | some en => (DecoFS.entriesOf lstatF xs).map (fun es => en :: es)

end DecoFS

/-! ## The read path

`DecoFS::read` (deco.rs lines 215-245): wrap the raw descriptor in an
`UnmanagedFile`, allocate a zeroed buffer of the requested size, seek to
the absolute offset, read into the buffer, truncate the buffer to the
number of bytes the OS reported, and hand the slice to the callback.
Bytes are `Nat` (u8 values).
-/

namespace DecoFS

/-- `DecoFS::read` with the two syscall outcomes supplied: result of
`file.seek(SeekFrom::Start(offset))` (new position, unused) and of
`file.read(&mut data)` (the bytes the OS wrote at the front of the
buffer).  `data.resize(size, 0)` builds the zeroed buffer, the OS writes
at most `size` bytes, `data.truncate(n)` keeps the first `n`. -/
def readOp (seekRes : Except (Option Int) Nat)
    (readRes : Except (Option Int) (List Nat)) (size : Nat) :
    Except Int (List Nat) :=
  match seekRes with
  | Except.error e => Except.error (errCode e)
  | Except.ok _ =>
    match readRes with
    | Except.error e => Except.error (errCode e)
    | Except.ok bytes =>
      let data := List.replicate size 0
      let n := min bytes.length data.length
      let written := bytes.take n ++ data.drop n
      Except.ok (written.take n)

/-- POSIX `lseek(SEEK_SET, offset)` followed by `read(size)` on a regular
file whose contents are `contents`: the OS returns the bytes from `offset`
up to the requested size, fewer at end of file, none at or past it. -/
def posixPread (contents : List Nat) (offset size : Nat) : List Nat :=
  (contents.drop offset).take size

/-- The full `DecoFS::read` pipeline against a regular file: the seek
succeeds and the read returns the POSIX result. -/
def readOnFile (contents : List Nat) (offset size : Nat) :
    Except Int (List Nat) :=
  DecoFS.readOp (Except.ok offset)
    (Except.ok (DecoFS.posixPread contents offset size)) size

end DecoFS

/-! ## Descriptor lifecycle as an OS-call trace

What `unmanaged_file.rs` is for: the wrapper built inside each `read` call
must not close the descriptor when it is dropped.  Each operation of the
open/read/release bracket is modelled by the list of OS calls it issues.
-/

/-- An OS call touching a file descriptor. -/
inductive OsCall where
  | openC : Nat → OsCall
  | seekC : Nat → Nat → OsCall
  | readC : Nat → Nat → OsCall
  | closeC : Nat → OsCall
deriving DecidableEq, Repr

namespace UnmanagedFile

/-- `UnmanagedFile::new(fd)` (unmanaged_file.rs lines 11-15):
`File::from_raw_fd` only wraps the integer; no OS call is issued. -/
def newCalls (_fd : Nat) : List OsCall := []

/-- `Drop for UnmanagedFile` (unmanaged_file.rs lines 24-30): the inner
`File` is taken out and `into_raw_fd()` forgets it without closing, so
disposal issues no OS call at all. -/
def dropCalls (_fd : Nat) : List OsCall := []

/-- What dropping an ordinary owned `std::fs::File` would issue: a close.
`UnmanagedFile::drop` calls `into_raw_fd` precisely to avoid this. -/
def stdFileDropCalls (fd : Nat) : List OsCall := [OsCall.closeC fd]

end UnmanagedFile

namespace DecoFS

/-- OS calls issued by one `DecoFS::read` request (deco.rs lines 215-245):
construct the `UnmanagedFile`, seek to the absolute offset, read, and drop
the wrapper when the call returns. -/
def readCalls (fh offset size : Nat) : List OsCall :=
  UnmanagedFile.newCalls fh
    ++ [OsCall.seekC fh offset, OsCall.readC fh size]
    ++ UnmanagedFile.dropCalls fh

/-- OS calls issued by `DecoFS::open` on success: the one `libc::open`. -/
def openCalls (fh : Nat) : List OsCall := [OsCall.openC fh]

/-- OS calls issued by `DecoFS::release` (deco.rs lines 196-213): the one
`libc_wrapper::close` on the handle. -/
def releaseCalls (fh : Nat) : List OsCall := [OsCall.closeC fh]

/-- The full trace of an open/read/release bracket: one open, then one
`read` request per element of `reqs` (offset, size pairs), then the
explicit release. -/
def sessionTrace (fh : Nat) (reqs : List (Nat × Nat)) : List OsCall :=
  DecoFS.openCalls fh
    ++ (reqs.map (fun r => DecoFS.readCalls fh r.1 r.2)).flatten
    ++ DecoFS.releaseCalls fh

end DecoFS

/-- Number of `close(fd)` calls in a trace. -/
def closesOf (fd : Nat) (t : List OsCall) : Nat :=
  t.countP (fun c => c = OsCall.closeC fd)

/-! ## Theorems -/

/-- C1: the short-lived wrapper built inside a read call never closes the
underlying descriptor when dropped — its disposal issues no OS call — and
across a whole open/read/release bracket with any number of reads the
descriptor is closed exactly once, by the explicit release: before the
release, the trace contains no close at all. -/
theorem unmanaged_close_once (fd : Nat) (reqs : List (Nat × Nat)) :
    UnmanagedFile.dropCalls fd = [] ∧
    (∀ off sz, closesOf fd (DecoFS.readCalls fd off sz) = 0) ∧
    closesOf fd
      (DecoFS.openCalls fd
        ++ (reqs.map (fun r => DecoFS.readCalls fd r.1 r.2)).flatten) = 0 ∧
    closesOf fd (DecoFS.releaseCalls fd) = 1 ∧
    closesOf fd (DecoFS.sessionTrace fd reqs) = 1 := by
  have hread : ∀ off sz, closesOf fd (DecoFS.readCalls fd off sz) = 0 := by
    intro off sz
    simp [closesOf, DecoFS.readCalls, UnmanagedFile.newCalls,
      UnmanagedFile.dropCalls, List.countP_cons, List.countP_append]
  have hflat : closesOf fd
      ((reqs.map (fun r => DecoFS.readCalls fd r.1 r.2)).flatten) = 0 := by
    induction reqs with
    | nil => rfl
    | cons r rs ih =>
      have := hread r.1 r.2
      simp only [List.map_cons, List.flatten_cons, closesOf,
        List.countP_append] at *
      omega
  have hopen : closesOf fd (DecoFS.openCalls fd) = 0 := by
    simp [closesOf, DecoFS.openCalls, List.countP_cons]
  have hrel : closesOf fd (DecoFS.releaseCalls fd) = 1 := by
    simp [closesOf, DecoFS.releaseCalls, List.countP_cons]
  refine ⟨rfl, hread, ?_, hrel, ?_⟩
  · simp only [closesOf, List.countP_append] at hflat hopen ⊢
    omega
  · simp only [DecoFS.sessionTrace, closesOf, List.countP_append]
      at hflat hopen hrel ⊢
    omega

/-- C2: for an absolute virtual path, `real_path` is the sourceroot joined
with the path minus its leading separator; for a non-absolute path, the
`unwrap` panics (a contract violation), modelled as `none`. -/
theorem real_path_spec (sourceroot p : RustPath) :
    (p.absolute = true →
      DecoFS.real_path sourceroot p =
        some ⟨sourceroot.absolute, sourceroot.components ++ p.components⟩) ∧
    (p.absolute = false → DecoFS.real_path sourceroot p = none) := by
  constructor <;> intro h <;>
    simp [DecoFS.real_path, stripRootSep, pathJoin, h]

/-- Witness for C2: concrete sourceroot `/data`, virtual path
`/notes.txt`, and a relative path that violates the precondition. -/
theorem real_path_spec_witness :
    DecoFS.real_path ⟨true, ["data"]⟩ ⟨true, ["notes.txt"]⟩ =
      some ⟨true, ["data", "notes.txt"]⟩ ∧
    DecoFS.real_path ⟨true, ["data"]⟩ ⟨false, ["notes.txt"]⟩ = none :=
  ⟨(real_path_spec ⟨true, ["data"]⟩ ⟨true, ["notes.txt"]⟩).1 rfl,
   (real_path_spec ⟨true, ["data"]⟩ ⟨false, ["notes.txt"]⟩).2 rfl⟩

/-- C3: `mode_to_filetype` maps each of the seven recognized masked mode
values to its unique tag, and panics (returns no type) exactly on every
other masked value. -/
theorem mode_to_filetype_spec (mode : Nat) :
    (DecoFS.mode_to_filetype mode = some FileType.Directory ↔
      mode &&& S_IFMT = S_IFDIR) ∧
    (DecoFS.mode_to_filetype mode = some FileType.RegularFile ↔
      mode &&& S_IFMT = S_IFREG) ∧
    (DecoFS.mode_to_filetype mode = some FileType.Symlink ↔
      mode &&& S_IFMT = S_IFLNK) ∧
    (DecoFS.mode_to_filetype mode = some FileType.BlockDevice ↔
      mode &&& S_IFMT = S_IFBLK) ∧
    (DecoFS.mode_to_filetype mode = some FileType.CharDevice ↔
      mode &&& S_IFMT = S_IFCHR) ∧
    (DecoFS.mode_to_filetype mode = some FileType.NamedPipe ↔
      mode &&& S_IFMT = S_IFIFO) ∧
    (DecoFS.mode_to_filetype mode = some FileType.Socket ↔
      mode &&& S_IFMT = S_IFSOCK) ∧
    (DecoFS.mode_to_filetype mode = none ↔
      ¬(mode &&& S_IFMT = S_IFDIR ∨ mode &&& S_IFMT = S_IFREG ∨
        mode &&& S_IFMT = S_IFLNK ∨ mode &&& S_IFMT = S_IFBLK ∨
        mode &&& S_IFMT = S_IFCHR ∨ mode &&& S_IFMT = S_IFIFO ∨
        mode &&& S_IFMT = S_IFSOCK)) := by
  simp only [DecoFS.mode_to_filetype]
  split_ifs <;>
    simp_all [S_IFMT, S_IFDIR, S_IFREG, S_IFLNK, S_IFBLK, S_IFCHR,
      S_IFIFO, S_IFSOCK]

/-- The `as u32` image is in range. -/
theorem asUnsigned_lt (w : Nat) (v : Int) : asUnsigned w v < 2 ^ w := by
  have hpos : (0 : Int) < 2 ^ w := by positivity
  have hlt : v % 2 ^ w < 2 ^ w := Int.emod_lt_of_pos v hpos
  have hnn : 0 ≤ v % 2 ^ w := Int.emod_nonneg v (by positivity)
  unfold asUnsigned
  rw [Int.toNat_lt' (by positivity)]
  push_cast
  exact hlt

/-- The `as u32` image is congruent to the input modulo `2 ^ w`: the cast
wraps. -/
theorem asUnsigned_modeq (w : Nat) (v : Int) :
    (asUnsigned w v : Int) ≡ v [ZMOD ((2 : Int) ^ w)] := by
  have hnn : 0 ≤ v % (2 : Int) ^ w := Int.emod_nonneg v (by positivity)
  show (asUnsigned w v : Int) % _ = v % _
  unfold asUnsigned
  rw [Int.toNat_of_nonneg hnn]
  exact Int.emod_emod_of_dvd v dvd_rfl

/-- C10: `statfs_to_fuse` passes the five 64-bit block and inode counts
through exactly, and coerces block size, maximum name length and fragment
size with a wrapping mod `2 ^ 32` cast: each exposed field is the unique
value below `2 ^ 32` congruent to the raw signed field, so negative or
over-wide values silently wrap. -/
theorem statfs_to_fuse_spec (s : CStatfs) :
    (DecoFS.statfs_to_fuse s).blocks = s.f_blocks ∧
    (DecoFS.statfs_to_fuse s).bfree = s.f_bfree ∧
    (DecoFS.statfs_to_fuse s).bavail = s.f_bavail ∧
    (DecoFS.statfs_to_fuse s).files = s.f_files ∧
    (DecoFS.statfs_to_fuse s).ffree = s.f_ffree ∧
    ((DecoFS.statfs_to_fuse s).bsize < 2 ^ 32 ∧
      ((DecoFS.statfs_to_fuse s).bsize : Int) ≡ s.f_bsize
        [ZMOD ((2 : Int) ^ 32)]) ∧
    ((DecoFS.statfs_to_fuse s).namelen < 2 ^ 32 ∧
      ((DecoFS.statfs_to_fuse s).namelen : Int) ≡ s.f_namelen
        [ZMOD ((2 : Int) ^ 32)]) ∧
    ((DecoFS.statfs_to_fuse s).frsize < 2 ^ 32 ∧
      ((DecoFS.statfs_to_fuse s).frsize : Int) ≡ s.f_frsize
        [ZMOD ((2 : Int) ^ 32)]) :=
  ⟨rfl, rfl, rfl, rfl, rfl,
   ⟨asUnsigned_lt 32 s.f_bsize, asUnsigned_modeq 32 s.f_bsize⟩,
   ⟨asUnsigned_lt 32 s.f_namelen, asUnsigned_modeq 32 s.f_namelen⟩,
   ⟨asUnsigned_lt 32 s.f_frsize, asUnsigned_modeq 32 s.f_frsize⟩⟩

/-- C6: on a stat whose mode is recognized and whose timestamps are all
nonnegative, `stat_to_fuse` reports the permission field as exactly the
low 12 bits of the mode, rebuilds each of the access/modify/change times
from the (seconds, nanoseconds) pair, and reports the creation time as the
epoch origin. -/
theorem stat_to_fuse_spec (s : CStat) (k : FileType)
    (hk : DecoFS.mode_to_filetype s.st_mode = some k)
    (ha : 0 ≤ s.st_atime) (han : 0 ≤ s.st_atime_nsec)
    (hm : 0 ≤ s.st_mtime) (hmn : 0 ≤ s.st_mtime_nsec)
    (hc : 0 ≤ s.st_ctime) (hcn : 0 ≤ s.st_ctime_nsec) :
    ∃ attr, DecoFS.stat_to_fuse s = some attr ∧
      attr.perm = s.st_mode % 2 ^ 12 ∧
      attr.atime = s.st_atime.toNat * 1000000000 + s.st_atime_nsec.toNat ∧
      attr.mtime = s.st_mtime.toNat * 1000000000 + s.st_mtime_nsec.toNat ∧
      attr.ctime = s.st_ctime.toNat * 1000000000 + s.st_ctime_nsec.toNat ∧
      attr.crtime = 0 ∧
      attr.kind = k := by
  have hperm : s.st_mode &&& 4095 = s.st_mode % 2 ^ 12 := by
    have := Nat.and_pow_two_sub_one_eq_mod s.st_mode 12
    norm_num at this
    exact this
  refine ⟨
    { size := asUnsigned 64 s.st_size
      blocks := asUnsigned 64 s.st_blocks
      atime := secsNanos s.st_atime.toNat s.st_atime_nsec.toNat
      mtime := secsNanos s.st_mtime.toNat s.st_mtime_nsec.toNat
      ctime := secsNanos s.st_ctime.toNat s.st_ctime_nsec.toNat
      crtime := 0
      kind := k
      perm := s.st_mode &&& 4095
      nlink := s.st_nlink % 2 ^ 32
      uid := s.st_uid
      gid := s.st_gid
      rdev := s.st_rdev % 2 ^ 32
      flags := 0 }, ?_, hperm, rfl, rfl, rfl, rfl, rfl⟩
  simp [DecoFS.stat_to_fuse, hk, i64TryIntoU64, ha.not_lt, han.not_lt,
    hm.not_lt, hmn.not_lt, hc.not_lt, hcn.not_lt, secsNanos]

/-- Witness for C6: a regular file with mode `0o100644`, access time
(5 s, 7 ns), modify time (9 s, 11 ns), change time (13 s, 15 ns). -/
theorem stat_to_fuse_spec_witness :
    ∃ attr,
      DecoFS.stat_to_fuse
        ⟨0o100644, 42, 1, 5, 7, 9, 11, 13, 15, 1, 1000, 1000, 0⟩ =
          some attr ∧
      attr.perm = 0o100644 % 2 ^ 12 ∧
      attr.atime = (5 : Int).toNat * 1000000000 + (7 : Int).toNat ∧
      attr.mtime = (9 : Int).toNat * 1000000000 + (11 : Int).toNat ∧
      attr.ctime = (13 : Int).toNat * 1000000000 + (15 : Int).toNat ∧
      attr.crtime = 0 ∧
      attr.kind = FileType.RegularFile :=
  stat_to_fuse_spec ⟨0o100644, 42, 1, 5, 7, 9, 11, 13, 15, 1, 1000, 1000, 0⟩
    FileType.RegularFile (by decide) (by decide) (by decide) (by decide)
    (by decide) (by decide) (by decide)

/-- C9: a stat carrying any negative timestamp field makes `stat_to_fuse`
abort the call path (the `try_into().unwrap()` panics) instead of
returning attributes. -/
theorem stat_to_fuse_negative_time (s : CStat)
    (h : s.st_atime < 0 ∨ s.st_atime_nsec < 0 ∨ s.st_mtime < 0 ∨
         s.st_mtime_nsec < 0 ∨ s.st_ctime < 0 ∨ s.st_ctime_nsec < 0) :
    DecoFS.stat_to_fuse s = none := by
  rcases hr : DecoFS.stat_to_fuse s with _ | attr
  · rfl
  · exfalso
    simp only [DecoFS.stat_to_fuse, Option.bind_eq_bind,
      Option.bind_eq_some] at hr
    obtain ⟨k, hk, asec, ha1, ansec, ha2, msec, hm1, mnsec, hm2, csec, hc1,
      cnsec, hc2, -⟩ := hr
    simp only [i64TryIntoU64] at ha1 ha2 hm1 hm2 hc1 hc2
    rcases h with h | h | h | h | h | h <;>
      simp [h] at ha1 ha2 hm1 hm2 hc1 hc2

/-- Witness for C9: a pre-1970 access time (seconds field `-5`). -/
theorem stat_to_fuse_negative_time_witness :
    DecoFS.stat_to_fuse
      ⟨0o100644, 42, 1, -5, 7, 9, 11, 13, 15, 1, 1000, 1000, 0⟩ = none :=
  stat_to_fuse_negative_time
    ⟨0o100644, 42, 1, -5, 7, 9, 11, 13, 15, 1, 1000, 1000, 0⟩
    (Or.inl (by decide))

/-- C4: against a regular file, a read seeks to the absolute offset and
returns exactly the bytes the OS read there, truncated to that count
(`(contents.drop offset).take size`); a read at or beyond end of file is
`ok []`, and a read spanning past end of file is `ok` with fewer bytes
than requested — neither is an error. -/
theorem read_spec (contents : List Nat) (offset size : Nat) :
    DecoFS.readOnFile contents offset size =
      Except.ok ((contents.drop offset).take size) ∧
    (contents.length ≤ offset →
      DecoFS.readOnFile contents offset size = Except.ok []) ∧
    (offset < contents.length → contents.length < offset + size →
      ∃ bytes, DecoFS.readOnFile contents offset size = Except.ok bytes ∧
        bytes.length = contents.length - offset ∧ bytes.length < size) := by
  have hlen : (DecoFS.posixPread contents offset size).length =
      min size (contents.length - offset) := by
    simp [DecoFS.posixPread, Nat.min_comm]
  have hmain : DecoFS.readOnFile contents offset size =
      Except.ok ((contents.drop offset).take size) := by
    unfold DecoFS.readOnFile DecoFS.readOp
    dsimp only
    have hle : (DecoFS.posixPread contents offset size).length ≤ size := by
      omega
    have hmin :
        min (DecoFS.posixPread contents offset size).length
          (List.replicate (α := Nat) size 0).length =
          (DecoFS.posixPread contents offset size).length := by
      simp [Nat.min_eq_left hle]
    rw [hmin, List.take_append_of_le_length (by simp), List.take_take]
    simp [DecoFS.posixPread]
  refine ⟨hmain, ?_, ?_⟩
  · intro h
    rw [hmain, List.drop_eq_nil_of_le h]
    simp
  · intro h1 h2
    refine ⟨(contents.drop offset).take size, hmain, ?_, ?_⟩ <;>
      simp [List.length_take, List.length_drop] <;> omega

/-- Witness for C4: the spec §8 scenario (a 42-byte file read at offset 40
for 10 bytes yields exactly 2 bytes) and a read at offset past the end. -/
theorem read_spec_witness :
    DecoFS.readOnFile (List.replicate 42 7) 40 10 =
      Except.ok ((List.replicate (α := Nat) 42 7).drop 40) ∧
    (∃ bytes, DecoFS.readOnFile (List.replicate 42 7) 40 10 =
        Except.ok bytes ∧ bytes.length = 2 ∧ bytes.length < 10) ∧
    DecoFS.readOnFile (List.replicate 42 7) 50 10 = Except.ok [] := by
  refine ⟨?_, ?_, ?_⟩
  · have := (read_spec (List.replicate 42 7) 40 10).1
    rw [this, List.take_of_length_le (by simp)]
  · have := (read_spec (List.replicate 42 7) 40 10).2.2
      (by decide) (by decide)
    simpa using this
  · exact (read_spec (List.replicate 42 7) 50 10).2.1 (by decide)

/-- C7: with an open handle supplied, `getattr` obtains attributes via
`fstat` on that handle — the path and the path-based stat are not
consulted at all — and without a handle it obtains them via `lstat` on the
translated real path; an OS failure is returned as the OS error code. -/
theorem getattr_spec
    (fstatF : Nat → Except (Option Int) CStat)
    (lstatF : RustPath → Except (Option Int) CStat)
    (sourceroot p : RustPath) :
    (∀ h stat, fstatF h = Except.ok stat →
      DecoFS.getattr fstatF lstatF sourceroot p (some h) =
        (DecoFS.stat_to_fuse stat).map Except.ok) ∧
    (∀ h e, fstatF h = Except.error e →
      DecoFS.getattr fstatF lstatF sourceroot p (some h) =
        some (Except.error (errCode e))) ∧
    (∀ h, ∀ lstatF2 : RustPath → Except (Option Int) CStat,
      ∀ sr2 p2 : RustPath,
      DecoFS.getattr fstatF lstatF sourceroot p (some h) =
        DecoFS.getattr fstatF lstatF2 sr2 p2 (some h)) ∧
    (∀ real, DecoFS.real_path sourceroot p = some real →
      (∀ stat, lstatF real = Except.ok stat →
        DecoFS.getattr fstatF lstatF sourceroot p none =
          (DecoFS.stat_to_fuse stat).map Except.ok) ∧
      (∀ e, lstatF real = Except.error e →
        DecoFS.getattr fstatF lstatF sourceroot p none =
          some (Except.error (errCode e)))) := by
  refine ⟨?_, ?_, ?_, ?_⟩
  · intro h stat hf
    cases hs : DecoFS.stat_to_fuse stat <;>
      simp [DecoFS.getattr, hf, hs]
  · intro h e hf
    simp [DecoFS.getattr, hf]
  · intro h lstatF2 sr2 p2
    simp [DecoFS.getattr]
  · intro real hreal
    constructor
    · intro stat hl
      cases hs : DecoFS.stat_to_fuse stat <;>
        simp [DecoFS.getattr, DecoFS.stat_real, hreal, hl, hs]
    · intro e hl
      simp [DecoFS.getattr, DecoFS.stat_real, hreal, hl]

/-- Witness for C7: constant syscall outcomes over the sourceroot `/data`
and virtual path `/notes.txt`; handle case via fstat (both outcomes) and
path case via lstat. -/
theorem getattr_spec_witness :
    DecoFS.getattr
        (fun _ => Except.ok
          ⟨0o100644, 42, 1, 5, 7, 9, 11, 13, 15, 1, 1000, 1000, 0⟩)
        (fun _ => Except.error (some 13))
        ⟨true, ["data"]⟩ ⟨true, ["notes.txt"]⟩ (some 3) =
      (DecoFS.stat_to_fuse
        ⟨0o100644, 42, 1, 5, 7, 9, 11, 13, 15, 1, 1000, 1000, 0⟩).map
          Except.ok ∧
    DecoFS.getattr (fun _ => Except.error (some 13))
        (fun _ => Except.ok
          ⟨0o100644, 42, 1, 5, 7, 9, 11, 13, 15, 1, 1000, 1000, 0⟩)
        ⟨true, ["data"]⟩ ⟨true, ["notes.txt"]⟩ (some 3) =
      some (Except.error (errCode (some 13))) ∧
    DecoFS.getattr (fun _ => Except.error (some 13))
        (fun _ => Except.ok
          ⟨0o100644, 42, 1, 5, 7, 9, 11, 13, 15, 1, 1000, 1000, 0⟩)
        ⟨true, ["data"]⟩ ⟨true, ["notes.txt"]⟩ none =
      (DecoFS.stat_to_fuse
        ⟨0o100644, 42, 1, 5, 7, 9, 11, 13, 15, 1, 1000, 1000, 0⟩).map
          Except.ok :=
  ⟨(getattr_spec
      (fun _ => Except.ok
        ⟨0o100644, 42, 1, 5, 7, 9, 11, 13, 15, 1, 1000, 1000, 0⟩)
      (fun _ => Except.error (some 13))
      ⟨true, ["data"]⟩ ⟨true, ["notes.txt"]⟩).1 3 _ rfl,
   ((getattr_spec (fun _ => Except.error (some 13))
      (fun _ => Except.ok
        ⟨0o100644, 42, 1, 5, 7, 9, 11, 13, 15, 1, 1000, 1000, 0⟩)
      ⟨true, ["data"]⟩ ⟨true, ["notes.txt"]⟩).2.1 3 (some 13) rfl),
   (((getattr_spec (fun _ => Except.error (some 13))
      (fun _ => Except.ok
        ⟨0o100644, 42, 1, 5, 7, 9, 11, 13, 15, 1, 1000, 1000, 0⟩)
      ⟨true, ["data"]⟩ ⟨true, ["notes.txt"]⟩).2.2.2
        ⟨true, ["data", "notes.txt"]⟩ rfl).1 _ rfl)⟩

/-- C8: every façade operation (getattr in both branches, statfs, readdir,
open, release, read at both its failure sites) reports a failed OS call as
`errCode` of the raw OS code, and `errCode` normalizes a missing code to
ENOENT while passing a present code through unchanged. -/
theorem errcode_fallback_spec :
    (errCode none = ENOENT ∧ ∀ c : Int, errCode (some c) = c) ∧
    (∀ (fstatF : Nat → Except (Option Int) CStat)
       (lstatF : RustPath → Except (Option Int) CStat)
       (sr p : RustPath) (h : Nat) (e : Option Int),
      fstatF h = Except.error e →
      DecoFS.getattr fstatF lstatF sr p (some h) =
        some (Except.error (errCode e))) ∧
    (∀ (fstatF : Nat → Except (Option Int) CStat)
       (lstatF : RustPath → Except (Option Int) CStat)
       (sr p real : RustPath) (e : Option Int),
      DecoFS.real_path sr p = some real →
      lstatF real = Except.error e →
      DecoFS.getattr fstatF lstatF sr p none =
        some (Except.error (errCode e))) ∧
    (∀ (statfsF : RustPath → Except (Option Int) CStatfs)
       (sr p real : RustPath) (e : Option Int),
      DecoFS.real_path sr p = some real →
      statfsF real = Except.error e →
      DecoFS.statfs statfsF sr p = some (Except.error (errCode e))) ∧
    (∀ (lstatF : RawDirEntry → Except (Option Int) CStat)
       (readDirF : RustPath →
         Except (Option Int) (List (Except (Option Int) RawDirEntry)))
       (sr p real : RustPath) (e : Option Int),
      DecoFS.real_path sr p = some real →
      readDirF real = Except.error e →
      DecoFS.readdir lstatF readDirF sr p =
        some (Except.error (errCode e))) ∧
    (∀ (openF : RustPath → Nat → Except (Option Int) Nat)
       (sr p real : RustPath) (flags : Nat) (e : Option Int),
      DecoFS.real_path sr p = some real →
      openF real flags = Except.error e →
      DecoFS.openOp openF sr p flags = some (Except.error (errCode e))) ∧
    (∀ (closeF : Nat → Except (Option Int) Int) (fh : Nat) (e : Option Int),
      closeF fh = Except.error e →
      DecoFS.release closeF fh = Except.error (errCode e)) ∧
    (∀ (readRes : Except (Option Int) (List Nat)) (size : Nat)
       (e : Option Int),
      DecoFS.readOp (Except.error e) readRes size =
        Except.error (errCode e)) ∧
    (∀ (pos size : Nat) (e : Option Int),
      DecoFS.readOp (Except.ok pos) (Except.error e) size =
        Except.error (errCode e)) := by
  refine ⟨⟨rfl, fun c => rfl⟩, ?_, ?_, ?_, ?_, ?_, ?_, ?_, ?_⟩
  · intro fstatF lstatF sr p h e hf
    simp [DecoFS.getattr, hf]
  · intro fstatF lstatF sr p real e hreal hl
    simp [DecoFS.getattr, DecoFS.stat_real, hreal, hl]
  · intro statfsF sr p real e hreal hs
    simp [DecoFS.statfs, hreal, hs]
  · intro lstatF readDirF sr p real e hreal hrd
    simp [DecoFS.readdir, hreal, hrd]
  · intro openF sr p real flags e hreal ho
    simp [DecoFS.openOp, hreal, ho]
  · intro closeF fh e hc
    simp [DecoFS.release, hc]
  · intro readRes size e
    rfl
  · intro pos size e
    rfl

/-- Witness for C8: concrete syscall outcomes, with a missing OS code at
the release site (normalized to ENOENT) and a present code 13 (EACCES) at
the getattr site (propagated unchanged). -/
theorem errcode_fallback_spec_witness :
    DecoFS.release (fun _ => Except.error none) 3 =
      Except.error ENOENT ∧
    DecoFS.getattr (fun _ => Except.error (some 13))
        (fun _ => Except.error none)
        ⟨true, ["data"]⟩ ⟨true, ["notes.txt"]⟩ (some 3) =
      some (Except.error (errCode (some 13))) ∧
    DecoFS.statfs (fun _ => Except.error none)
        ⟨true, ["data"]⟩ ⟨true, ["notes.txt"]⟩ =
      some (Except.error (errCode none)) ∧
    DecoFS.readOp (Except.ok 0) (Except.error (some 5)) 4 =
      Except.error (errCode (some 5)) := by
  refine ⟨?_, ?_, ?_, ?_⟩
  · have := errcode_fallback_spec.2.2.2.2.2.2.1
      (fun _ => Except.error none) 3 none rfl
    simpa using this
  · exact errcode_fallback_spec.2.1 (fun _ => Except.error (some 13))
      (fun _ => Except.error none)
      ⟨true, ["data"]⟩ ⟨true, ["notes.txt"]⟩ 3 (some 13) rfl
  · exact errcode_fallback_spec.2.2.2.1 (fun _ => Except.error none)
      ⟨true, ["data"]⟩ ⟨true, ["notes.txt"]⟩
      ⟨true, ["data", "notes.txt"]⟩ none rfl rfl
  · exact errcode_fallback_spec.2.2.2.2.2.2.2.2 0 4 (some 5)

/-- The entry loop succeeds with `l` exactly when every item succeeds and
`l` is the list of per-item entries. -/
theorem readdirLoop_ok_iff
    (lstatF : RawDirEntry → Except (Option Int) CStat)
    (items : List (Except (Option Int) RawDirEntry))
    (l : List DirectoryEntry) :
    DecoFS.readdirLoop lstatF items = some (Except.ok l) ↔
      DecoFS.entriesOf lstatF items = some l := by
  induction items generalizing l with
  | nil => simp [DecoFS.readdirLoop, DecoFS.entriesOf]
  | cons x xs ih =>
    cases x with
    | error e =>
      simp [DecoFS.readdirLoop, DecoFS.entriesOf, DecoFS.entryOf]
    | ok en =>
      cases hl : lstatF en with
      | error e =>
        simp [DecoFS.readdirLoop, DecoFS.entriesOf, DecoFS.entryOf, hl]
      | ok st =>
        cases hf : DecoFS.stat_to_filetype st with
        | none =>
          simp [DecoFS.readdirLoop, DecoFS.entriesOf, DecoFS.entryOf,
            hl, hf]
        | some ft =>
          simp only [DecoFS.readdirLoop, DecoFS.entriesOf,
            DecoFS.entryOf, hl, hf]
          constructor
          · intro hL
            obtain ⟨r, hr, hrm⟩ := Option.map_eq_some'.mp hL
            cases r with
            | error e2 => simp [Except.map] at hrm
            | ok es =>
              simp only [Except.map, Except.ok.injEq] at hrm
              exact Option.map_eq_some'.mpr ⟨es, (ih es).mp hr, hrm⟩
          · intro hR
            obtain ⟨es, hes, hcons⟩ := Option.map_eq_some'.mp hR
            exact Option.map_eq_some'.mpr
              ⟨Except.ok es, (ih es).mpr hes, by simp [Except.map, hcons]⟩

/-- If every item before some entry succeeds and that entry's `lstat`
fails, the entry loop fails with that error. -/
theorem readdirLoop_error_entry
    (lstatF : RawDirEntry → Except (Option Int) CStat)
    (pre rest : List (Except (Option Int) RawDirEntry))
    (ent : RawDirEntry) (e : Option Int)
    (hpre : ∀ x ∈ pre, (DecoFS.entryOf lstatF x).isSome)
    (he : lstatF ent = Except.error e) :
    DecoFS.readdirLoop lstatF (pre ++ Except.ok ent :: rest) =
      some (Except.error (errCode e)) := by
  induction pre with
  | nil => simp [DecoFS.readdirLoop, he]
  | cons x xs ih =>
    have hx := hpre x (by simp)
    have hxs : ∀ y ∈ xs, (DecoFS.entryOf lstatF y).isSome :=
      fun y hy => hpre y (by simp [hy])
    cases x with
    | error e2 => simp [DecoFS.entryOf] at hx
    | ok en =>
      cases hl : lstatF en with
      | error e2 => simp [DecoFS.entryOf, hl] at hx
      | ok st =>
        cases hf : DecoFS.stat_to_filetype st with
        | none => simp [DecoFS.entryOf, hl, hf] at hx
        | some ft =>
          simp [DecoFS.readdirLoop, hl, hf, ih hxs, Except.map]

/-- A successful expected listing has one entry per item. -/
theorem entriesOf_length
    (lstatF : RawDirEntry → Except (Option Int) CStat)
    (items : List (Except (Option Int) RawDirEntry))
    (l : List DirectoryEntry)
    (h : DecoFS.entriesOf lstatF items = some l) :
    l.length = items.length := by
  induction items generalizing l with
  | nil =>
    simp only [DecoFS.entriesOf, Option.some.injEq] at h
    simp [← h]
  | cons x xs ih =>
    simp only [DecoFS.entriesOf] at h
    cases hx : DecoFS.entryOf lstatF x <;> rw [hx] at h
    · simp at h
    · obtain ⟨es, hes, hl⟩ := Option.map_eq_some'.mp h
      simp [← hl, ih es hes]

/-- C5: `readdir` fails atomically.  If opening the directory listing
fails, the whole call fails with that error; if the per-entry `lstat` of
any entry fails (all earlier items having succeeded), the whole call fails
with that entry's error; the call returns a list exactly when every item
succeeds, the list being the per-item entries (name plus type derived from
the stat mode), so no partial list is ever returned; on success the list
has one entry per item. -/
theorem readdir_spec
    (lstatF : RawDirEntry → Except (Option Int) CStat)
    (readDirF : RustPath →
      Except (Option Int) (List (Except (Option Int) RawDirEntry)))
    (sourceroot p real : RustPath)
    (hreal : DecoFS.real_path sourceroot p = some real) :
    (∀ e, readDirF real = Except.error e →
      DecoFS.readdir lstatF readDirF sourceroot p =
        some (Except.error (errCode e))) ∧
    (∀ pre ent rest e,
      readDirF real = Except.ok (pre ++ Except.ok ent :: rest) →
      (∀ x ∈ pre, (DecoFS.entryOf lstatF x).isSome) →
      lstatF ent = Except.error e →
      DecoFS.readdir lstatF readDirF sourceroot p =
        some (Except.error (errCode e))) ∧
    (∀ items l, readDirF real = Except.ok items →
      (DecoFS.readdir lstatF readDirF sourceroot p =
          some (Except.ok l) ↔
        DecoFS.entriesOf lstatF items = some l)) ∧
    (∀ items l, readDirF real = Except.ok items →
      DecoFS.readdir lstatF readDirF sourceroot p =
        some (Except.ok l) →
      l.length = items.length) := by
  refine ⟨?_, ?_, ?_, ?_⟩
  · intro e hrd
    simp [DecoFS.readdir, hreal, hrd]
  · intro pre ent rest e hrd hpre he
    simp only [DecoFS.readdir, hreal, hrd]
    exact readdirLoop_error_entry lstatF pre rest ent e hpre he
  · intro items l hrd
    simp only [DecoFS.readdir, hreal, hrd]
    exact readdirLoop_ok_iff lstatF items l
  · intro items l hrd hok
    simp only [DecoFS.readdir, hreal, hrd] at hok
    exact entriesOf_length lstatF items l
      ((readdirLoop_ok_iff lstatF items l).mp hok)

/-- Witness for C5: a listing `[a, b]` where the `lstat` of `b` fails with
code 13 fails the whole call with 13; a listing `[a]` of a directory
succeeds with the one classified entry; a listing whose opening fails with
no retrievable code fails whole. -/
theorem readdir_spec_witness :
    DecoFS.readdir
        (fun en => if en.name = "b" then Except.error (some 13)
          else Except.ok ⟨0o040755, 4096, 8, 5, 7, 9, 11, 13, 15, 2,
            1000, 1000, 0⟩)
        (fun _ => Except.ok [Except.ok ⟨"a"⟩, Except.ok ⟨"b"⟩])
        ⟨true, ["data"]⟩ ⟨true, ["sub"]⟩ =
      some (Except.error (errCode (some 13))) ∧
    DecoFS.readdir
        (fun _ => Except.ok ⟨0o040755, 4096, 8, 5, 7, 9, 11, 13, 15, 2,
          1000, 1000, 0⟩)
        (fun _ => Except.ok [Except.ok ⟨"a"⟩])
        ⟨true, ["data"]⟩ ⟨true, ["sub"]⟩ =
      some (Except.ok [⟨"a", FileType.Directory⟩]) ∧
    DecoFS.readdir
        (fun _ => Except.ok ⟨0o040755, 4096, 8, 5, 7, 9, 11, 13, 15, 2,
          1000, 1000, 0⟩)
        (fun _ => Except.error none)
        ⟨true, ["data"]⟩ ⟨true, ["sub"]⟩ =
      some (Except.error (errCode none)) := by
  refine ⟨?_, ?_, ?_⟩
  · exact (readdir_spec _ _ ⟨true, ["data"]⟩ ⟨true, ["sub"]⟩ ⟨true, ["data", "sub"]⟩ rfl).2.1
      [Except.ok ⟨"a"⟩] ⟨"b"⟩ [] (some 13) rfl (by decide) rfl
  · exact ((readdir_spec _ _ ⟨true, ["data"]⟩ ⟨true, ["sub"]⟩ ⟨true, ["data", "sub"]⟩ rfl).2.2.1
      [Except.ok ⟨"a"⟩] [⟨"a", FileType.Directory⟩] rfl).mpr (by decide)
  · exact (readdir_spec _ _ ⟨true, ["data"]⟩ ⟨true, ["sub"]⟩ ⟨true, ["data", "sub"]⟩ rfl).1 none rfl

/-- Witness for C1: descriptor 7, three reads at increasing offsets —
exactly one close over the whole bracket, no close in any read. -/
theorem unmanaged_close_once_witness :
    closesOf 7 (DecoFS.sessionTrace 7 [(0, 4), (4, 4), (8, 4)]) = 1 ∧
    closesOf 7
      (DecoFS.openCalls 7
        ++ ([(0, 4), (4, 4), (8, 4)].map
            (fun r => DecoFS.readCalls 7 r.1 r.2)).flatten) = 0 :=
  ⟨(unmanaged_close_once 7 [(0, 4), (4, 4), (8, 4)]).2.2.2.2,
   (unmanaged_close_once 7 [(0, 4), (4, 4), (8, 4)]).2.2.1⟩

/-- Witness for C3: mode `0o100644` is a regular file, mode `0o040755` a
directory, and masked value `0` is the fatal panic case. -/
theorem mode_to_filetype_spec_witness :
    DecoFS.mode_to_filetype 0o100644 = some FileType.RegularFile ∧
    DecoFS.mode_to_filetype 0o040755 = some FileType.Directory ∧
    DecoFS.mode_to_filetype 0o000644 = none :=
  ⟨(mode_to_filetype_spec 0o100644).2.1.mpr (by decide),
   (mode_to_filetype_spec 0o040755).1.mpr (by decide),
   (mode_to_filetype_spec 0o000644).2.2.2.2.2.2.2.mpr (by decide)⟩

/-- Witness for C10: a statfs with `f_bsize = -1` wraps to the value below
`2 ^ 32` congruent to `-1`, while the 64-bit block count passes through. -/
theorem statfs_to_fuse_spec_witness :
    (DecoFS.statfs_to_fuse ⟨10, 9, 8, 7, 6, -1, 255, 4096⟩).blocks = 10 ∧
    (DecoFS.statfs_to_fuse ⟨10, 9, 8, 7, 6, -1, 255, 4096⟩).bsize <
      2 ^ 32 ∧
    ((DecoFS.statfs_to_fuse ⟨10, 9, 8, 7, 6, -1, 255, 4096⟩).bsize : Int) ≡
      -1 [ZMOD ((2 : Int) ^ 32)] :=
  ⟨(statfs_to_fuse_spec ⟨10, 9, 8, 7, 6, -1, 255, 4096⟩).1,
   (statfs_to_fuse_spec ⟨10, 9, 8, 7, 6, -1, 255, 4096⟩).2.2.2.2.2.1.1,
   (statfs_to_fuse_spec ⟨10, 9, 8, 7, 6, -1, 255, 4096⟩).2.2.2.2.2.1.2⟩

end Decofs
